import Mathlib

/-!
# Verification of the Vispy getting-started recipe

Shallow embedding of the single program of this repository
(`src/featured/06_vispy.ipynb`): two GLSL shader source strings, a
`gloo.Program` built from them, a `(1000, 2)` attribute array bound to
`a_position`, and the `on_resize` / `on_draw` canvas callbacks.

The GLSL sources are embedded as the literal strings of the notebook and
given meaning by a small tokenizer, parser and evaluator covering the GLSL
subset they use (attribute declarations, a `main` whose body is a sequence
of assignments of `vecN` constructor calls).  The external collaborators
(the `vispy.gloo` binding, NumPy's `linspace` / `uniform`, the line-strip
primitive assembly) are modelled from the repository's own documentation
and the specification, as the comments on each definition record.
-/

set_option autoImplicit false
set_option maxRecDepth 8192

namespace VispyRecipe

/-! ## GLSL tokenizer -/

/-- The opening brace character of GLSL source text. -/
def openBrace : String := "\x7b"

/-- The closing brace character of GLSL source text. -/
def closeBrace : String := "\x7d"

/-- Single-character punctuation tokens of the GLSL subset used by the
recipe's shaders. -/
def isPunctChar (c : Char) : Bool :=
  ['(', ')', ';', ',', '='].contains c || c = Char.ofNat 123 || c = Char.ofNat 125

/-- Tokenizer worker: `cur` holds the characters of the pending
identifier/number token, in reverse order. -/
def tokenizeChars : List Char → List Char → List String
  | [], cur => if cur.isEmpty then [] else [String.mk cur.reverse]
  | c :: rest, cur =>
    if isPunctChar c then
      (if cur.isEmpty then [] else [String.mk cur.reverse]) ++
        String.mk [c] :: tokenizeChars rest []
    else if c.isWhitespace then
      (if cur.isEmpty then [] else [String.mk cur.reverse]) ++ tokenizeChars rest []
    else
      tokenizeChars rest (c :: cur)

/-- Split a GLSL source text into punctuation, identifier and number tokens. -/
def tokenize (s : String) : List String :=
  tokenizeChars s.toList []

/-! ## GLSL abstract syntax -/

/-- An argument of a `vecN` constructor call: a numeric literal or a
variable reference. -/
inductive Arg where
  | lit (v : ℚ)
  | var (name : String)
deriving DecidableEq

/-- The right-hand side of a GLSL assignment in the subset used here. -/
inductive Rhs where
  | arg (a : Arg)
  | call (f : String) (args : List Arg)
deriving DecidableEq

/-- An assignment statement `lhs = rhs;`. -/
structure Stmt where
  lhs : String
  rhs : Rhs
deriving DecidableEq

/-- An `attribute <type> <name>;` declaration, recording how many scalar
components the attribute's type carries per vertex (`vec2` carries 2). -/
structure AttrDecl where
  name : String
  components : ℕ
deriving DecidableEq

/-- A parsed shader: its attribute declarations and the statements of
`main`. -/
structure Shader where
  attrs : List AttrDecl
  body : List Stmt
deriving DecidableEq

/-! ## GLSL parsing -/

/-- Value of a nonempty all-digit character list, read in base 10. -/
def digitsVal (cs : List Char) : Option ℕ :=
  if cs.isEmpty || !cs.all Char.isDigit then none
  else some (cs.foldl (fun n c => 10 * n + (c.toNat - 48)) 0)

/-- Split a character list at every `'.'`. -/
def splitDotAux : List Char → List Char → List (List Char)
  | [], cur => [cur.reverse]
  | c :: rest, cur =>
    if c = '.' then cur.reverse :: splitDotAux rest []
    else splitDotAux rest (c :: cur)

/-- Parse a decimal literal token such as `0.0` or `1.0` into a rational. -/
def numLit (s : String) : Option ℚ :=
  match splitDotAux s.toList [] with
  | [a] => (digitsVal a).map fun n => mkRat n 1
  | [a, b] =>
    match digitsVal a, digitsVal b with
    | some n, some m => some (mkRat (n * 10 ^ b.length + m) (10 ^ b.length))
    | _, _ => none
  | _ => none

/-- Is `c` a character allowed after the first character of a GLSL
identifier? -/
def isIdentChar (c : Char) : Bool :=
  c.isAlphanum || c = '_'

/-- Is `s` a GLSL identifier token? -/
def isIdentTok (s : String) : Bool :=
  match s.toList with
  | [] => false
  | c :: rest => (c.isAlpha || c = '_') && rest.all isIdentChar

/-- Parse one call argument token. -/
def parseArg (t : String) : Option Arg :=
  match numLit t with
  | some v => some (.lit v)
  | none => if isIdentTok t then some (.var t) else none

/-- Number of scalar components of a GLSL type used in an attribute
declaration. -/
def typeComponents : String → Option ℕ
  | "float" => some 1
  | "vec2" => some 2
  | "vec3" => some 3
  | "vec4" => some 4
  | _ => none

/-- Parse a comma-separated argument list up to the closing parenthesis;
the fuel bounds the number of arguments. -/
def parseArgsAux : ℕ → List String → Option (List Arg × List String)
  | 0, _ => none
  | _ + 1, [] => none
  | fuel + 1, t :: rest =>
    match parseArg t with
    | none => none
    | some a =>
      match rest with
      | ")" :: rest2 => some ([a], rest2)
      | "," :: rest2 =>
        match parseArgsAux fuel rest2 with
        | some (as, rest3) => some (a :: as, rest3)
        | none => none
      | _ => none

/-- Parse the right-hand side of an assignment: a constructor call or a
single argument. -/
def parseRhs : List String → Option (Rhs × List String)
  | f :: "(" :: rest =>
    match parseArgsAux (rest.length + 1) rest with
    | some (args, rest2) => some (.call f args, rest2)
    | none => none
  | t :: rest =>
    match parseArg t with
    | some a => some (.arg a, rest)
    | none => none
  | [] => none

/-- Parse the assignment statements of a `main` body up to the closing
brace; the fuel bounds the number of statements. -/
def parseStmtsAux : ℕ → List String → Option (List Stmt × List String)
  | 0, _ => none
  | fuel + 1, toks =>
    if toks.head? = some closeBrace then
      some ([], toks.tail)
    else
      match toks with
      | lhs :: "=" :: rest =>
        if isIdentTok lhs then
          match parseRhs rest with
          | some (r, ";" :: rest2) =>
            match parseStmtsAux fuel rest2 with
            | some (ss, rest3) => some (⟨lhs, r⟩ :: ss, rest3)
            | none => none
          | _ => none
        else none
      | _ => none

/-- Parse the leading `attribute <type> <name>;` declarations; the fuel
bounds the number of declarations. -/
def parseDeclsAux : ℕ → List String → Option (List AttrDecl × List String)
  | 0, toks => some ([], toks)
  | fuel + 1, toks =>
    match toks with
    | "attribute" :: ty :: nm :: ";" :: rest =>
      match typeComponents ty with
      | some k =>
        if isIdentTok nm then
          match parseDeclsAux fuel rest with
          | some (ds, r) => some (⟨nm, k⟩ :: ds, r)
          | none => none
        else none
      | none => none
    | _ => some ([], toks)

/-- Parse a whole shader source: attribute declarations, then
`void main (void) ... ` or `void main () ... ` with a braced body of
assignment statements, and nothing after it. -/
def parseShader (src : String) : Option Shader :=
  let toks := tokenize src
  match parseDeclsAux (toks.length + 1) toks with
  | none => none
  | some (ds, r) =>
    match r with
    | "void" :: "main" :: "(" :: rest =>
      let afterParams : Option (List String) :=
        match rest with
        | "void" :: ")" :: r2 => some r2
        | ")" :: r2 => some r2
        | _ => none
      match afterParams with
      | none => none
      | some r2 =>
        match r2 with
        | ob :: r3 =>
          if ob = openBrace then
            match parseStmtsAux (r3.length + 1) r3 with
            | some (ss, rest4) => if rest4.isEmpty then some ⟨ds, ss⟩ else none
            | none => none
          else none
        | [] => none
    | _ => none

/-! ## GLSL evaluation -/

/-- Evaluate a call argument to its list of scalar components, in the
environment `env` of assigned vector variables. -/
def evalArg (env : List (String × List ℚ)) : Arg → Option (List ℚ)
  | .lit v => some [v]
  | .var n => env.lookup n

/-- Number of scalar components a `vecN` constructor produces. -/
def vecComponents : String → Option ℕ
  | "vec2" => some 2
  | "vec3" => some 3
  | "vec4" => some 4
  | _ => none

/-- Evaluate the right-hand side of an assignment.  A `vecN` constructor
concatenates the components of its arguments and must receive exactly `N`
scalar components in total. -/
def evalRhs (env : List (String × List ℚ)) : Rhs → Option (List ℚ)
  | .arg a => evalArg env a
  | .call f args =>
    match vecComponents f with
    | none => none
    | some k =>
      match args.mapM (evalArg env) with
      | none => none
      | some vss =>
        let v := vss.flatten
        if v.length = k then some v else none

/-- Execute the assignment statements of a `main` body in order, extending
the variable environment. -/
def execStmts (env : List (String × List ℚ)) : List Stmt → Option (List (String × List ℚ))
  | [] => some env
  | s :: rest =>
    match evalRhs env s.rhs with
    | some v => execStmts ((s.lhs, v) :: env) rest
    | none => none

/-- Run one invocation of a shader's `main` on the per-vertex inputs
`attrs`, returning the components assigned to the output variable
`outVar` (for the vertex stage, `gl_Position`). -/
def runShader (src : String) (attrs : List (String × List ℚ)) (outVar : String) :
    Option (List ℚ) :=
  match parseShader src with
  | none => none
  | some sh =>
    match execStmts attrs sh.body with
    | some env => env.lookup outVar
    | none => none

/-! ## The gloo binding, modelled from the spec

The `vispy.gloo` library is an external collaborator of this repository;
its contract is modelled from the specification's words. -/

/-- Modelled from the spec: the two error classes of the external graphics
binding — "compilation fails with a `CompileError` if syntax is invalid;
`draw(topology)` fails with a `RuntimeError` if any referenced attribute
is unbound". -/
inductive GlooError where
  | CompileError
  | RuntimeError
deriving DecidableEq

/-- A command issued to the GPU, as recorded by this model: a clear with an
RGBA color, a viewport update, or a draw of a primitive topology over the
program's attribute bindings at the time of the call. -/
inductive RenderCmd where
  | clear (r g b a : ℚ)
  | setViewport (x y w h : ℕ)
  | draw (topology : String) (bindings : List (String × List (List ℚ)))
deriving DecidableEq

/-- A compiled `gloo.Program`: the two source texts it was built from and
the attribute bindings made so far (`program[name] = data`). -/
structure GlooProgram where
  vertexSource : String
  fragmentSource : String
  bindings : List (String × List (List ℚ))
deriving DecidableEq

/-- The attributes a shader source declares (and, in the recipe's shaders,
references). -/
def declaredAttrs (src : String) : List AttrDecl :=
  match parseShader src with
  | some sh => sh.attrs
  | none => []

/-- Modelled from the spec: `gloo.Program(vertex, fragment)` "accepts two
source texts (vertex-stage, fragment-stage); compilation fails with a
`CompileError` if syntax is invalid".  Syntax validity is acceptance by
the GLSL subset grammar above; the source texts are stored bit-exact. -/
def GlooProgram.create (v f : String) : Except GlooError GlooProgram :=
  if (parseShader v).isSome && (parseShader f).isSome then
    .ok ⟨v, f, []⟩
  else
    .error .CompileError

/-- All attributes declared by either shader of the program. -/
def GlooProgram.attrs (p : GlooProgram) : List AttrDecl :=
  declaredAttrs p.vertexSource ++ declaredAttrs p.fragmentSource

/-- Modelled from the spec: `program[name] = data` binds a NumPy 2D array
to a declared attribute; "buffer length matches the count the vertex stage
expects to consume per invocation; no partial binding is valid", so every
row must carry exactly the attribute's declared component count. -/
def GlooProgram.setAttr (p : GlooProgram) (name : String) (data : List (List ℚ)) :
    Except GlooError GlooProgram :=
  match p.attrs.find? (fun d => d.name = name) with
  | some d =>
    if data.all (fun row => row.length = d.components) then
      .ok { p with bindings := (name, data) :: p.bindings }
    else
      .error .RuntimeError
  | none => .error .RuntimeError

/-- Modelled from the spec: "`draw(topology)` fails with a `RuntimeError`
if any referenced attribute is unbound"; otherwise it issues one draw
command over the current bindings. -/
def GlooProgram.draw (p : GlooProgram) (topology : String) :
    Except GlooError RenderCmd :=
  if p.attrs.all (fun d => (p.bindings.lookup d.name).isSome) then
    .ok (.draw topology p.bindings)
  else
    .error .RuntimeError

/-! ## The notebook's data and program -/

/-- The vertex shader source string of the notebook, character for
character (`vertex = """..."""`). -/
def vertex : String :=
  "\nattribute vec2 a_position;\nvoid main (void)\n\x7b\n    gl_Position = vec4(a_position, 0.0, 1.0);\n\x7d\n"

/-- The fragment shader source string of the notebook, character for
character (`fragment = """..."""`). -/
def fragment : String :=
  "\nvoid main()\n\x7b\n    gl_FragColor = vec4(0.0, 0.0, 0.0, 1.0);\n\x7d\n"

/-- Modelled from NumPy: `np.linspace(a, b, n)` returns the `n` evenly
spaced values `a + (b - a) * i / (n - 1)` for `i = 0, ..., n - 1`. -/
def linspace (a b : ℚ) (n : ℕ) : List ℚ :=
  (List.range n).map fun (i : ℕ) => a + (b - a) * (i : ℚ) / ((n : ℚ) - 1)

/-- Modelled from NumPy: `np.random.uniform(low, high, n)` draws each
sample from the half-open interval `[low, high)`.  `ys` is one possible
output of the generator. -/
def uniformRange (low high : ℚ) (ys : List ℚ) : Prop :=
  ∀ y ∈ ys, low ≤ y ∧ y < high

/-- Modelled from NumPy: `np.c_[xs, ys]` column-stacks two equal-length 1D
arrays into a 2D array whose rows are the pairs `[x, y]`. -/
def columnStack2 (xs ys : List ℚ) : List (List ℚ) :=
  List.zipWith (fun x y => [x, y]) xs ys

/-- The array the notebook binds to `a_position`:
`np.c_[np.linspace(-1.0, +1.0, 1000), np.random.uniform(-0.5, +0.5, 1000)]`,
with `ys` standing for the sampled uniform column. -/
def a_position_data (ys : List ℚ) : List (List ℚ) :=
  columnStack2 (linspace (-1) 1 1000) ys

/-- The notebook's setup: `program = gloo.Program(vertex, fragment)`
followed by `program['a_position'] = np.c_[...]`. -/
def setupProgram (ys : List ℚ) : Except GlooError GlooProgram := do
  let p ← GlooProgram.create vertex fragment
  p.setAttr "a_position" (a_position_data ys)

/-! ## The canvas, its callbacks and the event loop -/

/-- Modelled from the windowing backend: the event object handed to the
resize callback.  The notebook consumes only `event.size`; `blocked`
stands for the event-object state the callback never reads. -/
structure ResizeEvent where
  size : ℕ × ℕ
  blocked : Bool
deriving DecidableEq

/-- Modelled from the windowing backend: the event object handed to the
draw callback.  The notebook reads nothing from it; `blocked` stands for
the event-object state the callback never reads. -/
structure DrawEvent where
  blocked : Bool
deriving DecidableEq

/-- The observable state of the running application: the program (with its
bindings), the current viewport, and the log of GPU commands issued so
far. -/
structure CanvasState where
  program : GlooProgram
  viewport : ℕ × ℕ × ℕ × ℕ
  log : List RenderCmd
deriving DecidableEq

/-- The notebook's resize callback:
`def on_resize(event): gloo.set_viewport(0, 0, *event.size)`. -/
def on_resize (event : ResizeEvent) (s : CanvasState) : CanvasState :=
  { s with
    viewport := (0, 0, event.size.1, event.size.2)
    log := s.log ++ [.setViewport 0 0 event.size.1 event.size.2] }

/-- The notebook's draw callback:
`def on_draw(event): gloo.clear((1,1,1,1)); program.draw('line_strip')`.
The clear command is issued first, then the draw call (which fails if a
declared attribute is unbound). -/
def on_draw (_event : DrawEvent) (s : CanvasState) : Except GlooError CanvasState :=
  match s.program.draw "line_strip" with
  | .ok cmd => .ok { s with log := s.log ++ [.clear 1 1 1 1, cmd] }
  | .error e => .error e

/-- An event dispatched by the backend's event loop to the connected
callbacks. -/
inductive CanvasEvent where
  | resize (e : ResizeEvent)
  | draw (e : DrawEvent)
deriving DecidableEq

/-- Dispatch one event to the callback the notebook connected for it. -/
def step (s : CanvasState) : CanvasEvent → Except GlooError CanvasState
  | .resize e => .ok (on_resize e s)
  | .draw e => on_draw e s

/-- Run the event loop over a list of events. -/
def runEvents (s : CanvasState) : List CanvasEvent → Except GlooError CanvasState
  | [] => .ok s
  | e :: rest =>
    match step s e with
    | .ok s2 => runEvents s2 rest
    | .error err => .error err

/-! ## Primitive assembly, modelled from the repository's documentation -/

/-- Modelled from the notebook's own text: "the `line_strip` primitive
type tells the GPU to run through all vertices ... and to draw a line
segment from one point to the next" — consecutive vertices are paired in
order. -/
def lineStripSegments (vs : List (List ℚ)) : List (List ℚ × List ℚ) :=
  vs.zip vs.tail

/-- Modelled from the notebook's own text: primitive assembly for the one
topology this program uses; other topologies are outside its scope. -/
def assembleSegments (topology : String) (vs : List (List ℚ)) :
    List (List ℚ × List ℚ) :=
  if topology = "line_strip" then lineStripSegments vs else []

/-- The vertex list a recorded draw command renders: the buffer bound to
`a_position` in the bindings it drew. -/
def drawnVertices (cmd : RenderCmd) : List (List ℚ) :=
  match cmd with
  | .draw _ bs => (bs.lookup "a_position").getD []
  | _ => []

/-- The declared per-vertex component count of attribute `name` in shader
source `src`. -/
def attrComponents (src name : String) : Option ℕ :=
  ((declaredAttrs src).find? (fun d => d.name = name)).map AttrDecl.components

/-! ## Basic facts about the concrete shaders -/

theorem parseShader_vertex :
    parseShader vertex =
      some ⟨[⟨"a_position", 2⟩],
        [⟨"gl_Position", .call "vec4" [.var "a_position", .lit 0, .lit 1]⟩]⟩ := by
  decide

theorem parseShader_fragment :
    parseShader fragment =
      some ⟨[], [⟨"gl_FragColor", .call "vec4" [.lit 0, .lit 0, .lit 0, .lit 1]⟩]⟩ := by
  decide

theorem declaredAttrs_vertex : declaredAttrs vertex = [⟨"a_position", 2⟩] := by
  rw [declaredAttrs, parseShader_vertex]

theorem declaredAttrs_fragment : declaredAttrs fragment = [] := by
  rw [declaredAttrs, parseShader_fragment]

theorem create_vertex_fragment :
    GlooProgram.create vertex fragment = .ok ⟨vertex, fragment, []⟩ := by
  rw [GlooProgram.create, parseShader_vertex, parseShader_fragment]
  rfl

/-! ## Helper lemmas about the data model -/

theorem mem_columnStack2 {xs ys : List ℚ} {r : List ℚ}
    (hr : r ∈ columnStack2 xs ys) :
    ∃ x y, r = [x, y] ∧ x ∈ xs ∧ y ∈ ys := by
  induction xs generalizing ys with
  | nil => simp [columnStack2] at hr
  | cons x xs ih =>
    cases ys with
    | nil => simp [columnStack2] at hr
    | cons y ys =>
      rw [columnStack2, List.zipWith_cons_cons] at hr
      rcases List.mem_cons.mp hr with h | h
      · exact ⟨x, y, h, List.mem_cons_self x xs, List.mem_cons_self y ys⟩
      · obtain ⟨x2, y2, hr2, hx2, hy2⟩ := ih h
        exact ⟨x2, y2, hr2, List.mem_cons_of_mem x hx2, List.mem_cons_of_mem y hy2⟩

theorem columnStack2_row_length {xs ys : List ℚ} {r : List ℚ}
    (hr : r ∈ columnStack2 xs ys) : r.length = 2 := by
  obtain ⟨x, y, rfl, -, -⟩ := mem_columnStack2 hr
  rfl

theorem columnStack2_all_two (xs ys : List ℚ) :
    (columnStack2 xs ys).all (fun row => row.length = 2) = true := by
  rw [List.all_eq_true]
  intro r hr
  simp [columnStack2_row_length hr]

theorem length_columnStack2 (xs ys : List ℚ) :
    (columnStack2 xs ys).length = min xs.length ys.length := by
  rw [columnStack2, List.length_zipWith]

theorem length_linspace (a b : ℚ) (n : ℕ) : (linspace a b n).length = n := by
  rw [linspace, List.length_map, List.length_range]

theorem linspace_neg_one_one_mem {x : ℚ}
    (hx : x ∈ linspace (-1) 1 1000) : -1 ≤ x ∧ x ≤ 1 := by
  rw [linspace] at hx
  simp only [List.mem_map, List.mem_range] at hx
  obtain ⟨i, hi, rfl⟩ := hx
  have h999 : (i : ℚ) ≤ 999 := by
    have : i ≤ 999 := by omega
    exact_mod_cast this
  have h0 : (0 : ℚ) ≤ (i : ℚ) := Nat.cast_nonneg i
  have hden : (((1000 : ℕ) : ℚ) - 1) = 999 := by norm_num
  rw [hden, show (1 - (-1 : ℚ)) = 2 by norm_num]
  constructor
  · have : 0 ≤ 2 * (i : ℚ) / 999 := by positivity
    linarith
  · have : 2 * (i : ℚ) / 999 ≤ 2 := by
      rw [div_le_iff₀ (by norm_num : (0 : ℚ) < 999)]
      linarith
    linarith

theorem getElem?_zip_tail {α : Type} {l : List α} {i : ℕ} {x y : α}
    (hx : l[i]? = some x) (hy : l[i + 1]? = some y) :
    (l.zip l.tail)[i]? = some (x, y) := by
  induction l generalizing i x y with
  | nil => simp at hx
  | cons a t ih =>
    cases t with
    | nil =>
      have : ([a] : List α)[i + 1]? = none := by
        rw [List.getElem?_cons_succ]
        exact List.getElem?_nil
      rw [this] at hy
      cases hy
    | cons b t2 =>
      cases i with
      | zero =>
        rw [List.getElem?_cons_zero] at hx
        rw [List.getElem?_cons_succ, List.getElem?_cons_zero] at hy
        cases hx
        cases hy
        simp [List.zip_cons_cons]
      | succ i =>
        rw [List.getElem?_cons_succ] at hx
        rw [List.getElem?_cons_succ] at hy
        have := ih (i := i) hx hy
        simpa [List.zip_cons_cons] using this

theorem length_lineStripSegments (vs : List (List ℚ)) :
    (lineStripSegments vs).length = vs.length - 1 := by
  rw [lineStripSegments, List.length_zip, List.length_tail]
  exact Nat.min_eq_right (Nat.sub_le _ _)

/-! ## Helper lemmas about the program and the event loop -/

theorem attrs_vf (bs : List (String × List (List ℚ))) :
    (⟨vertex, fragment, bs⟩ : GlooProgram).attrs = [⟨"a_position", 2⟩] := by
  rw [GlooProgram.attrs]
  dsimp only
  rw [declaredAttrs_vertex, declaredAttrs_fragment]
  rfl

theorem setAttr_eq (p : GlooProgram) (name : String) (data : List (List ℚ))
    (d : AttrDecl) (hfind : p.attrs.find? (fun d2 => d2.name = name) = some d)
    (hall : data.all (fun row => row.length = d.components) = true) :
    p.setAttr name data = .ok { p with bindings := (name, data) :: p.bindings } := by
  rw [GlooProgram.setAttr, hfind]
  dsimp only
  rw [hall]
  rfl

theorem setAttr_vf_ok (bs : List (String × List (List ℚ))) (ys : List ℚ) :
    GlooProgram.setAttr ⟨vertex, fragment, bs⟩ "a_position" (a_position_data ys) =
      .ok ⟨vertex, fragment, ("a_position", a_position_data ys) :: bs⟩ := by
  refine setAttr_eq _ _ _ ⟨"a_position", 2⟩ ?_ ?_
  · rw [attrs_vf]
    decide
  · exact columnStack2_all_two _ _

theorem setupProgram_ok (ys : List ℚ) :
    setupProgram ys =
      .ok ⟨vertex, fragment, [("a_position", a_position_data ys)]⟩ := by
  have h1 : setupProgram ys =
      GlooProgram.setAttr ⟨vertex, fragment, []⟩ "a_position" (a_position_data ys) := by
    rw [setupProgram, create_vertex_fragment]
    rfl
  rw [h1]
  exact setAttr_vf_ok [] ys

theorem draw_shape {p : GlooProgram} {t : String} {cmd : RenderCmd}
    (h : p.draw t = .ok cmd) : cmd = .draw t p.bindings := by
  rw [GlooProgram.draw] at h
  split at h
  · cases h
    rfl
  · cases h

theorem draw_vf_ok (bs : List (String × List (List ℚ)))
    (hb : (bs.lookup "a_position").isSome) (t : String) :
    GlooProgram.draw ⟨vertex, fragment, bs⟩ t = .ok (.draw t bs) := by
  rw [GlooProgram.draw, attrs_vf]
  simp only [List.all_cons, List.all_nil, Bool.and_true]
  rw [if_pos hb]

theorem on_draw_ok {e : DrawEvent} {s s2 : CanvasState}
    (h : on_draw e s = .ok s2) :
    s2.program = s.program ∧ s2.viewport = s.viewport ∧
      s2.log = s.log ++ [.clear 1 1 1 1, .draw "line_strip" s.program.bindings] := by
  rw [on_draw] at h
  cases hd : s.program.draw "line_strip" with
  | ok cmd =>
    rw [hd] at h
    cases h
    have := draw_shape hd
    subst this
    exact ⟨rfl, rfl, rfl⟩
  | error err =>
    rw [hd] at h
    cases h

/-! ## The claims -/

/-- C1: constructing a `gloo.Program` from two shader source texts fails with
a `CompileError` exactly when one of the sources has invalid syntax;
`draw(topology)` fails with a `RuntimeError` when an attribute referenced by
the shaders is unbound at the time of the draw call; and under the
notebook's setup — the given valid vertex/fragment sources with `a_position`
bound — neither error occurs. -/
theorem program_error_contract :
    (∀ v f : String,
      GlooProgram.create v f = .error .CompileError ↔
        ¬((parseShader v).isSome = true ∧ (parseShader f).isSome = true)) ∧
    (∀ (p : GlooProgram) (t : String) (d : AttrDecl),
      d ∈ p.attrs → (p.bindings.lookup d.name).isNone = true →
        p.draw t = .error .RuntimeError) ∧
    (∀ ys : List ℚ, ∃ p : GlooProgram, setupProgram ys = .ok p ∧
      p.draw "line_strip" = .ok (.draw "line_strip" p.bindings)) := by
  refine ⟨?_, ?_, ?_⟩
  · intro v f
    rw [GlooProgram.create]
    by_cases hc : ((parseShader v).isSome && (parseShader f).isSome) = true
    · rw [if_pos hc]
      rw [Bool.and_eq_true] at hc
      constructor
      · intro h
        cases h
      · intro h
        exact absurd hc h
    · rw [if_neg hc]
      rw [Bool.and_eq_true] at hc
      constructor
      · intro _
        exact hc
      · intro _
        rfl
  · intro p t d hd hnone
    rw [GlooProgram.draw]
    have hall : p.attrs.all (fun d2 => (p.bindings.lookup d2.name).isSome) = false := by
      cases hb : p.attrs.all (fun d2 => (p.bindings.lookup d2.name).isSome) with
      | false => rfl
      | true =>
        exfalso
        have hmem := List.all_eq_true.mp hb d hd
        rw [Option.isNone_iff_eq_none] at hnone
        rw [hnone] at hmem
        simp at hmem
    rw [hall]
    rfl
  · intro ys
    refine ⟨⟨vertex, fragment, [("a_position", a_position_data ys)]⟩,
      setupProgram_ok ys, ?_⟩
    exact draw_vf_ok _ (by rfl) "line_strip"

/-- Witness for `program_error_contract`: the draw-error part at a program
with `a_position` unbound, and the no-error part at the notebook's own
setup. -/
theorem program_error_contract_witness :
    GlooProgram.draw ⟨vertex, fragment, []⟩ "line_strip" = .error .RuntimeError ∧
    (∃ p : GlooProgram, setupProgram [] = .ok p ∧
      p.draw "line_strip" = .ok (.draw "line_strip" p.bindings)) :=
  ⟨program_error_contract.2.1 ⟨vertex, fragment, []⟩ "line_strip" ⟨"a_position", 2⟩
      (by rw [attrs_vf]; exact List.mem_cons_self _ _) (by rfl),
    program_error_contract.2.2 []⟩

/-- C2: every vertex `(x, y)` in the attribute buffer bound to `a_position`
has both components in the closed interval `[-1, 1]`: the
`linspace(-1, 1, 1000)` column and any column drawn from
`uniform(-0.5, 0.5, 1000)` stay inside the normalized device coordinate
square. -/
theorem a_position_in_ndc (ys : List ℚ)
    (h : uniformRange (-(1 / 2)) (1 / 2) ys) :
    ∀ row ∈ a_position_data ys, ∀ c ∈ row, -1 ≤ c ∧ c ≤ 1 := by
  intro row hrow c hc
  rw [a_position_data] at hrow
  obtain ⟨x, y, rfl, hx, hy⟩ := mem_columnStack2 hrow
  have hc2 : c = x ∨ c = y := by simpa using hc
  rcases hc2 with rfl | rfl
  · exact linspace_neg_one_one_mem hx
  · obtain ⟨h1, h2⟩ := h c hy
    constructor <;> linarith

/-- Witness for `a_position_in_ndc` at the concrete uniform column `[0]`. -/
theorem a_position_in_ndc_witness :
    uniformRange (-(1 / 2)) (1 / 2) [0] ∧
      ∀ row ∈ a_position_data [0], ∀ c ∈ row, -1 ≤ c ∧ c ≤ 1 := by
  have h : uniformRange (-(1 / 2)) (1 / 2) [0] := by
    intro y hy
    rw [List.mem_singleton] at hy
    subst hy
    norm_num
  exact ⟨h, a_position_in_ndc [0] h⟩

/-- C4: the array bound to `a_position` — the column stack of
`linspace(-1, 1, 1000)` and a length-1000 uniform sample — has shape
`(1000, 2)`: exactly 1000 rows of exactly 2 components each. -/
theorem a_position_shape (ys : List ℚ) (h : ys.length = 1000) :
    (a_position_data ys).length = 1000 ∧
      ∀ row ∈ a_position_data ys, row.length = 2 := by
  constructor
  · rw [a_position_data, length_columnStack2, length_linspace, h]
    exact Nat.min_self 1000
  · intro row hrow
    exact columnStack2_row_length hrow

/-- Witness for `a_position_shape` at the concrete column of 1000 zeros. -/
theorem a_position_shape_witness :
    (List.replicate 1000 (0 : ℚ)).length = 1000 ∧
      ((a_position_data (List.replicate 1000 0)).length = 1000 ∧
        ∀ row ∈ a_position_data (List.replicate 1000 0), row.length = 2) :=
  ⟨List.length_replicate 1000 0, a_position_shape _ (List.length_replicate 1000 0)⟩

/-- C5: the vertex shader declares `attribute vec2 a_position` — 2 components
per vertex — the bound array has exactly 2 columns, and binding the array to
the attribute succeeds (the binding is total, no partial binding). -/
theorem binding_matches_shader (ys : List ℚ) :
    attrComponents vertex "a_position" = some 2 ∧
    (∀ row ∈ a_position_data ys, row.length = 2) ∧
    GlooProgram.setAttr ⟨vertex, fragment, []⟩ "a_position" (a_position_data ys) =
      .ok ⟨vertex, fragment, [("a_position", a_position_data ys)]⟩ := by
  refine ⟨?_, ?_, setAttr_vf_ok [] ys⟩
  · rw [attrComponents, declaredAttrs_vertex]
    rfl
  · intro row hrow
    exact columnStack2_row_length hrow

/-- C7: the shader source texts pass through to the graphics binding
bit-exact: a program built by `gloo.Program(v, f)` stores exactly the given
texts, with no transformation applied. -/
theorem shader_passthrough (v f : String) (p : GlooProgram)
    (h : GlooProgram.create v f = .ok p) :
    p.vertexSource = v ∧ p.fragmentSource = f := by
  rw [GlooProgram.create] at h
  split at h
  · cases h
    exact ⟨rfl, rfl⟩
  · cases h

/-- Witness for `shader_passthrough` at the notebook's literal `vertex` and
`fragment` strings. -/
theorem shader_passthrough_witness :
    GlooProgram.create vertex fragment = .ok ⟨vertex, fragment, []⟩ ∧
    (⟨vertex, fragment, []⟩ : GlooProgram).vertexSource = vertex ∧
    (⟨vertex, fragment, []⟩ : GlooProgram).fragmentSource = fragment :=
  ⟨create_vertex_fragment, shader_passthrough vertex fragment _ create_vertex_fragment⟩

/-- C9: the vertex stage is an identity pass-through on the 2D coordinates:
running the notebook's vertex shader with `a_position = (x, y)` assigns
`gl_Position = (x, y, 0, 1)` — coordinates unchanged, depth 0, homogeneous
coordinate 1. -/
theorem vertex_stage_identity (x y : ℚ) :
    runShader vertex [("a_position", [x, y])] "gl_Position" = some [x, y, 0, 1] := by
  rw [runShader, parseShader_vertex]
  rfl

/-- C3: the draw invocation interprets the buffer under the
connected-line-segments topology: each `on_draw` issues a draw with the
`line_strip` primitive type, and under that topology the vertices are
consumed in insertion order with one segment between each pair of
consecutive vertices, so N vertices yield exactly N - 1 segments. -/
theorem line_strip_topology :
    (∀ (e : DrawEvent) (s s2 : CanvasState), on_draw e s = .ok s2 →
      s2.log = s.log ++ [.clear 1 1 1 1, .draw "line_strip" s.program.bindings]) ∧
    (∀ vs : List (List ℚ),
      (assembleSegments "line_strip" vs).length = vs.length - 1) ∧
    (∀ (vs : List (List ℚ)) (i : ℕ) (x y : List ℚ),
      vs[i]? = some x → vs[i + 1]? = some y →
        (assembleSegments "line_strip" vs)[i]? = some (x, y)) := by
  refine ⟨?_, ?_, ?_⟩
  · intro e s s2 h
    exact (on_draw_ok h).2.2
  · intro vs
    rw [assembleSegments, if_pos rfl]
    exact length_lineStripSegments vs
  · intro vs i x y hx hy
    rw [assembleSegments, if_pos rfl]
    exact getElem?_zip_tail hx hy

/-- Witness for `line_strip_topology`: one concrete `on_draw` invocation and
the segment between the first two vertices of a concrete 3-vertex buffer. -/
theorem line_strip_topology_witness :
    (⟨⟨vertex, fragment, [("a_position", [])]⟩, (0, 0, 0, 0),
        [RenderCmd.clear 1 1 1 1,
          RenderCmd.draw "line_strip" [("a_position", [])]]⟩ : CanvasState).log =
      (⟨⟨vertex, fragment, [("a_position", [])]⟩, (0, 0, 0, 0),
          []⟩ : CanvasState).log ++
        [RenderCmd.clear 1 1 1 1,
          RenderCmd.draw "line_strip"
            (⟨⟨vertex, fragment, [("a_position", [])]⟩, (0, 0, 0, 0),
              []⟩ : CanvasState).program.bindings] ∧
    (assembleSegments "line_strip" [[(0 : ℚ), 0], [1, 0], [1, 1]])[0]? =
      some ([0, 0], [1, 0]) :=
  ⟨line_strip_topology.1 ⟨false⟩
      ⟨⟨vertex, fragment, [("a_position", [])]⟩, (0, 0, 0, 0), []⟩
      ⟨⟨vertex, fragment, [("a_position", [])]⟩, (0, 0, 0, 0),
        [RenderCmd.clear 1 1 1 1,
          RenderCmd.draw "line_strip" [("a_position", [])]]⟩ (by rfl),
    line_strip_topology.2.2 [[(0 : ℚ), 0], [1, 0], [1, 1]] 0 [0, 0] [1, 0] rfl rfl⟩

/-- C6: the attribute buffer is immutable after upload: over any sequence of
resize and draw events, however long, the program — and so the vertex data
bound to `a_position` — is unchanged, and every draw command issued along
the way draws the program's original bindings, so every frame draws the
same vertices. -/
theorem buffer_immutable (s : CanvasState) (evs : List CanvasEvent)
    (s2 : CanvasState) (h : runEvents s evs = .ok s2) :
    s2.program = s.program ∧
    ∃ new : List RenderCmd, s2.log = s.log ++ new ∧
      ∀ cmd ∈ new, ∀ t bs, cmd = RenderCmd.draw t bs →
        bs = s.program.bindings := by
  induction evs generalizing s with
  | nil =>
    rw [runEvents] at h
    cases h
    refine ⟨rfl, [], by rw [List.append_nil], ?_⟩
    intro cmd hc
    exact absurd hc (List.not_mem_nil cmd)
  | cons e rest ih =>
    rw [runEvents] at h
    cases e with
    | resize re =>
      have h2 : runEvents (on_resize re s) rest = .ok s2 := h
      obtain ⟨hp, new, hlog, hdraw⟩ := ih (on_resize re s) h2
      refine ⟨hp, RenderCmd.setViewport 0 0 re.size.1 re.size.2 :: new, ?_, ?_⟩
      · rw [hlog]
        simp [on_resize, List.append_assoc]
      · intro cmd hc t bs hcmd
        rcases List.mem_cons.mp hc with rfl | hcnew
        · cases hcmd
        · exact hdraw cmd hcnew t bs hcmd
    | draw de =>
      have hstep : step s (CanvasEvent.draw de) = on_draw de s := rfl
      rw [hstep] at h
      cases hd : on_draw de s with
      | error err =>
        rw [hd] at h
        cases h
      | ok s3 =>
        rw [hd] at h
        obtain ⟨hp3, hv3, hl3⟩ := on_draw_ok hd
        obtain ⟨hp, new, hlog, hdraw⟩ := ih s3 h
        refine ⟨hp.trans hp3, RenderCmd.clear 1 1 1 1 ::
          RenderCmd.draw "line_strip" s.program.bindings :: new, ?_, ?_⟩
        · rw [hlog, hl3]
          simp [List.append_assoc]
        · intro cmd hc t bs hcmd
          rcases List.mem_cons.mp hc with rfl | hc2
          · cases hcmd
          · rcases List.mem_cons.mp hc2 with rfl | hc3
            · cases hcmd
              rfl
            · have hb := hdraw cmd hc3 t bs hcmd
              rw [hp3] at hb
              exact hb

/-- Witness for `buffer_immutable`: a concrete run of one resize followed by
one draw leaves the program untouched. -/
theorem buffer_immutable_witness :
    (⟨⟨vertex, fragment, [("a_position", [])]⟩, (0, 0, 5, 6),
        [RenderCmd.setViewport 0 0 5 6, RenderCmd.clear 1 1 1 1,
          RenderCmd.draw "line_strip" [("a_position", [])]]⟩ : CanvasState).program =
      (⟨⟨vertex, fragment, [("a_position", [])]⟩, (0, 0, 0, 0),
          []⟩ : CanvasState).program ∧
    ∃ new : List RenderCmd,
      (⟨⟨vertex, fragment, [("a_position", [])]⟩, (0, 0, 5, 6),
          [RenderCmd.setViewport 0 0 5 6, RenderCmd.clear 1 1 1 1,
            RenderCmd.draw "line_strip" [("a_position", [])]]⟩ : CanvasState).log =
        (⟨⟨vertex, fragment, [("a_position", [])]⟩, (0, 0, 0, 0),
            []⟩ : CanvasState).log ++ new ∧
      ∀ cmd ∈ new, ∀ t bs, cmd = RenderCmd.draw t bs →
        bs = (⟨⟨vertex, fragment, [("a_position", [])]⟩, (0, 0, 0, 0),
          []⟩ : CanvasState).program.bindings :=
  buffer_immutable ⟨⟨vertex, fragment, [("a_position", [])]⟩, (0, 0, 0, 0), []⟩
    [CanvasEvent.resize ⟨(5, 6), false⟩, CanvasEvent.draw ⟨false⟩]
    ⟨⟨vertex, fragment, [("a_position", [])]⟩, (0, 0, 5, 6),
      [RenderCmd.setViewport 0 0 5 6, RenderCmd.clear 1 1 1 1,
        RenderCmd.draw "line_strip" [("a_position", [])]]⟩ (by rfl)

/-- C8: callback signatures — the resize callback consumes exactly the new
width and height carried by its event (two resize events with the same size
act identically, and the viewport is set from that width and height), and
the draw callback consumes no data from its event (any two draw events act
identically). -/
theorem callback_signatures :
    (∀ (e1 e2 : ResizeEvent) (s : CanvasState), e1.size = e2.size →
      on_resize e1 s = on_resize e2 s) ∧
    (∀ (e : ResizeEvent) (s : CanvasState), on_resize e s =
      { s with viewport := (0, 0, e.size.1, e.size.2),
               log := s.log ++ [.setViewport 0 0 e.size.1 e.size.2] }) ∧
    (∀ (e1 e2 : DrawEvent) (s : CanvasState), on_draw e1 s = on_draw e2 s) := by
  refine ⟨?_, ?_, ?_⟩
  · intro e1 e2 s h
    rw [on_resize, on_resize, h]
  · intro e s
    rfl
  · intro e1 e2 s
    rfl

/-- Witness for `callback_signatures`: two distinct resize events with equal
size act identically on a concrete state. -/
theorem callback_signatures_witness :
    ((⟨(3, 4), true⟩ : ResizeEvent).size = (⟨(3, 4), false⟩ : ResizeEvent).size) ∧
    on_resize ⟨(3, 4), true⟩ ⟨⟨vertex, fragment, []⟩, (0, 0, 0, 0), []⟩ =
      on_resize ⟨(3, 4), false⟩ ⟨⟨vertex, fragment, []⟩, (0, 0, 0, 0), []⟩ :=
  ⟨rfl, callback_signatures.1 ⟨(3, 4), true⟩ ⟨(3, 4), false⟩
    ⟨⟨vertex, fragment, []⟩, (0, 0, 0, 0), []⟩ rfl⟩

/-- C10: on every invocation of `on_draw` the canvas is first cleared to
opaque white `(1, 1, 1, 1)` and only then is the draw call issued: among the
commands the invocation appends, the white clear is at position 0, the draw
call exists, and every draw is preceded by the white clear. -/
theorem clear_precedes_draw (e : DrawEvent) (s s2 : CanvasState)
    (h : on_draw e s = .ok s2) :
    ∃ new : List RenderCmd, s2.log = s.log ++ new ∧
      new[0]? = some (RenderCmd.clear 1 1 1 1) ∧
      (∃ (t : String) (bs : List (String × List (List ℚ))),
        new[1]? = some (RenderCmd.draw t bs)) ∧
      ∀ (i : ℕ) (t : String) (bs : List (String × List (List ℚ))),
        new[i]? = some (RenderCmd.draw t bs) →
          ∃ j, j < i ∧ new[j]? = some (RenderCmd.clear 1 1 1 1) := by
  obtain ⟨-, -, hl⟩ := on_draw_ok h
  refine ⟨[.clear 1 1 1 1, .draw "line_strip" s.program.bindings], hl, rfl,
    ⟨"line_strip", s.program.bindings, rfl⟩, ?_⟩
  intro i t bs hi
  cases i with
  | zero =>
    rw [List.getElem?_cons_zero] at hi
    simp at hi
  | succ i =>
    cases i with
    | zero => exact ⟨0, Nat.zero_lt_one, rfl⟩
    | succ i =>
      rw [List.getElem?_cons_succ, List.getElem?_cons_succ, List.getElem?_nil] at hi
      cases hi

/-- Witness for `clear_precedes_draw` at a concrete `on_draw` invocation. -/
theorem clear_precedes_draw_witness :
    ∃ new : List RenderCmd,
      (⟨⟨vertex, fragment, [("a_position", [])]⟩, (0, 0, 0, 0),
          [RenderCmd.clear 1 1 1 1,
            RenderCmd.draw "line_strip" [("a_position", [])]]⟩ : CanvasState).log =
        (⟨⟨vertex, fragment, [("a_position", [])]⟩, (0, 0, 0, 0),
            []⟩ : CanvasState).log ++ new ∧
      new[0]? = some (RenderCmd.clear 1 1 1 1) ∧
      (∃ (t : String) (bs : List (String × List (List ℚ))),
        new[1]? = some (RenderCmd.draw t bs)) ∧
      ∀ (i : ℕ) (t : String) (bs : List (String × List (List ℚ))),
        new[i]? = some (RenderCmd.draw t bs) →
          ∃ j, j < i ∧ new[j]? = some (RenderCmd.clear 1 1 1 1) :=
  clear_precedes_draw ⟨false⟩
    ⟨⟨vertex, fragment, [("a_position", [])]⟩, (0, 0, 0, 0), []⟩
    ⟨⟨vertex, fragment, [("a_position", [])]⟩, (0, 0, 0, 0),
      [RenderCmd.clear 1 1 1 1,
        RenderCmd.draw "line_strip" [("a_position", [])]]⟩ (by rfl)

end VispyRecipe
